import Mathlib

/-!
Verification of the widget-tree parser of the Relm4 macro crate
(`relm4-macros/src/widgets/parse/top_level_widget.rs`).

The top-level parse routine reads an optional leading attribute list,
extracts the root marker from it, then parses the widget body; a body
parse failure is downgraded into a synthetic fallback widget carrying the
diagnostic as a `PropertyType.ParseError` property.

Shallow embedding notes:
* The surrounding data types (`Attr`, `Attrs`, `Widget`, ...) and the two
  sub-parsers (`syn` attribute parsing, `Widget::parse`) live outside the
  analyzed file; they are modelled abstractly, faithful to how
  `top_level_widget.rs` consumes them.  A `ParseStream` is modelled by the
  outcomes of the two sub-parser calls the top-level routine makes on it:
  the (already `Result -> Option` collapsed) attribute-list result, and the
  widget-body parser as a function of the attribute list handed to it.
* Identifiers are modelled as strings; a diagnostic is a message plus a
  source-location number (the spec: "message + source location").
-/

/-- Identifier, modelled as a plain string. -/
abbrev Ident := String

/-- Modelled from the spec: a path such as `gtk::Box`, as its segments. -/
structure SynPath where
  segments : List String
  deriving DecidableEq, Repr

/-- Diagnostic carried by a parse failure: a human-readable message and a
source span (modelled as a number). -/
structure Diagnostic where
  message : String
  span : Nat
  deriving DecidableEq, Repr

/-- Modelled from the spec: an attribute is a tagged marker before a widget
declaration; one variant (`Root`) designates the root of the tree, every
other variant is opaque to the top-level routine (it matches `Attr::Root`
against `_`). -/
inductive Attr where
  | Root (ident : Ident)
  | Other (payload : String)
  deriving DecidableEq, Repr

/-- Ordered attribute list (`Attrs { inner: Vec<Attr> }`). -/
structure Attrs where
  inner : List Attr
  deriving DecidableEq, Repr

/-- Modelled from the spec: widget-level attribute state (none / present). -/
inductive WidgetAttr where
  | None
  | Present
  deriving DecidableEq, Repr

/-- Modelled from the spec: constructor arguments, kept abstract. -/
abbrev Args := List String

/-- Function descriptor of a widget: constructor path, optional arguments,
optional method chain, optional type annotation (`WidgetFunc`). -/
structure WidgetFunc where
  path : SynPath
  args : Option Args
  method_chain : Option (List Ident)
  ty : Option SynPath
  deriving DecidableEq, Repr

/-- Property name: plain identifier or dotted path. -/
inductive PropertyName where
  | Ident (i : Ident)
  | SynPath (p : SynPath)
  deriving DecidableEq, Repr

/-- Property payload: either real property data (collapsed into one abstract
arm, `Data`) or an embedded diagnostic (`ParseError`), the recovery arm. -/
inductive PropertyType where
  | Data (payload : String)
  | ParseError (err : Diagnostic)
  deriving DecidableEq, Repr

/-- A named property. -/
structure Property where
  name : PropertyName
  ty : PropertyType
  deriving DecidableEq, Repr

/-- Ordered property collection (`Properties { properties: Vec<Property> }`). -/
structure Properties where
  properties : List Property
  deriving DecidableEq, Repr

/-- Modelled from the spec: the optional "returned widget" sub-node of a
builder pattern; only its presence or absence matters to the claims. -/
structure ReturnedWidget where
  tag : Nat
  deriving DecidableEq, Repr

/-- A widget node, with the fields `top_level_widget.rs` populates. -/
structure Widget where
  doc_attr : Option String
  attr : WidgetAttr
  mutable : Option Unit
  name : Ident
  func : WidgetFunc
  args : Option Args
  properties : Properties
  wrapper : Option Ident
  ref_token : Option Unit
  deref_token : Option Unit
  returned_widget : Option ReturnedWidget
  deriving DecidableEq, Repr

/-- The parse result: optional root marker plus the inner widget subtree. -/
structure TopLevelWidget where
  root_attr : Option Ident
  inner : Widget
  deriving DecidableEq, Repr

/-- Modelled from the spec: `parse_util::string_to_snake_case` is not under
the analyzed sources; the spec says widget names are normalized to
snake-case identifier form, modelled as lower-casing each upper-case
character with a preceding underscore (identity on snake-case input). -/
def string_to_snake_case (s : String) : Ident :=
  String.mk (s.data.foldl
    (fun acc c => acc ++ (if c.isUpper then [Char.ofNat 95, c.toLower] else [c])) [])

/-- Modelled from the spec: `parse_util::strings_to_path` builds a path from
its segments. -/
def strings_to_path (segments : List String) : SynPath :=
  { segments := segments }

/-- Tests whether an attribute is the root marker. -/
def Attr.isRoot : Attr → Bool
  | .Root _ => true
  | .Other _ => false

/-- The identifier payload of a root marker, if any. -/
def Attr.rootIdent : Attr → Option Ident
  | .Root i => some i
  | .Other _ => none

/-- Loop body of the root-extraction scan in `TopLevelWidget::parse`:
walk the list, saving a root marker into the separate slot (overwriting a
previously saved one) and pushing every other attribute to the new list.
The `Vec::with_capacity` pre-sizing of the source is a performance detail
with no observable effect on the produced list and is not modelled. -/
def partitionGo (l : List Attr) (acc : List Attr) (root : Option Ident) :
    List Attr × Option Ident :=
  match l with
  | [] => (acc, root)
  | attr :: rest =>
    match attr with
    | Attr.Root ident => partitionGo rest acc (some ident)
    | Attr.Other p => partitionGo rest (acc ++ [Attr.Other p]) root

/-- Root-extraction scan: non-root attributes in order, plus the root slot. -/
def partitionAttrs (l : List Attr) : List Attr × Option Ident :=
  partitionGo l [] none

/-- Attribute step of `TopLevelWidget::parse`: if an attribute list parsed,
partition it (keeping `Some` even when the remainder is empty); otherwise
both the attribute list and the root slot are `None`. -/
def filterAttrs : Option Attrs → Option Attrs × Option Ident
  | some prev =>
      let p := partitionAttrs prev.inner
      (some { inner := p.1 }, p.2)
  | none => (none, none)

/-- The fallback widget synthesized when the widget body fails to parse,
field for field as in the `Err` arm of `TopLevelWidget::parse`. -/
def fallbackWidget (err : Diagnostic) : Widget :=
  { doc_attr := none
    attr := WidgetAttr.None
    mutable := none
    name := string_to_snake_case "incorrect_top_level_widget"
    func :=
      { path := strings_to_path ["gtk", "Box"]
        args := none
        method_chain := none
        ty := none }
    args := none
    properties :=
      { properties :=
          [{ name := PropertyName.Ident (string_to_snake_case "invalid_property")
             ty := PropertyType.ParseError err }] }
    wrapper := none
    ref_token := none
    deref_token := none
    returned_widget := none }

/-- A token stream, modelled by the outcomes of the two sub-parser calls
`TopLevelWidget::parse` makes on it: `attrsResult` is the result of
`input.parse::<Attrs>().ok()` (so a missing and a malformed attribute list
are both `none`), and `widgetParse` is `Widget::parse(input, ·, None)`,
which may fail with a diagnostic. -/
structure ParseStream where
  attrsResult : Option Attrs
  widgetParse : Option Attrs → Except Diagnostic Widget

/-- Shallow embedding of `TopLevelWidget::parse`: extract the root marker
from the (best-effort) attribute list, parse the widget body with the
remaining attributes, and downgrade a body failure into `fallbackWidget`. -/
def TopLevelWidget.parse (input : ParseStream) : TopLevelWidget :=
  let fa := filterAttrs input.attrsResult
  let inner :=
    match input.widgetParse fa.1 with
    | Except.ok inner => inner
    | Except.error err => fallbackWidget err
  { root_attr := fa.2, inner := inner }

/-! ### Helper lemmas about the root-extraction scan -/

/-- Tracks the last root marker seen, starting from `r`. -/
def lastRootFrom (r : Option Ident) : List Attr → Option Ident
  | [] => r
  | Attr.Root i :: rest => lastRootFrom (some i) rest
  | Attr.Other _ :: rest => lastRootFrom r rest

theorem partitionGo_eq (l : List Attr) (acc : List Attr) (r : Option Ident) :
    partitionGo l acc r = (acc ++ l.filter (fun a => !a.isRoot), lastRootFrom r l) := by
  induction l generalizing acc r with
  | nil => simp [partitionGo, lastRootFrom]
  | cons a rest ih =>
    cases a with
    | Root i =>
      simp [partitionGo, lastRootFrom, List.filter, Attr.isRoot, ih]
    | Other p =>
      simp [partitionGo, lastRootFrom, List.filter, Attr.isRoot, ih]

theorem partitionAttrs_fst (l : List Attr) :
    (partitionAttrs l).1 = l.filter (fun a => !a.isRoot) := by
  simp [partitionAttrs, partitionGo_eq]

theorem partitionAttrs_snd (l : List Attr) :
    (partitionAttrs l).2 = lastRootFrom none l := by
  simp [partitionAttrs, partitionGo_eq]

theorem lastRootFrom_eq (l : List Attr) (r : Option Ident) :
    lastRootFrom r l = ((l.filterMap Attr.rootIdent).getLast?).or r := by
  induction l generalizing r with
  | nil => simp [lastRootFrom]
  | cons a rest ih =>
    cases a with
    | Other p =>
      simp [lastRootFrom, List.filterMap_cons, Attr.rootIdent, ih]
    | Root i =>
      rw [show lastRootFrom r (Attr.Root i :: rest) = lastRootFrom (some i) rest from rfl, ih]
      rw [List.filterMap_cons]
      simp only [Attr.rootIdent]
      cases h : rest.filterMap Attr.rootIdent with
      | nil => simp
      | cons b t =>
        rw [List.getLast?_cons_cons]
        cases h2 : (b :: t).getLast? with
        | none =>
          exact absurd (List.getLast?_eq_none_iff.mp h2) (by simp)
        | some v => simp [Option.or]

theorem lastRootFrom_none (l : List Attr) :
    lastRootFrom none l = (l.filterMap Attr.rootIdent).getLast? := by
  rw [lastRootFrom_eq]
  cases h : (l.filterMap Attr.rootIdent).getLast? <;> simp [Option.or]

theorem filter_eq_self_of_no_root (l : List Attr)
    (h : ∀ (j : Nat) (y : Ident), l[j]? = some (Attr.Root y) → False) :
    l.filter (fun a => !a.isRoot) = l := by
  induction l with
  | nil => rfl
  | cons a rest ih =>
    cases a with
    | Root i => exact (h 0 i (by simp)).elim
    | Other p =>
      rw [List.filter_cons_of_pos (by simp [Attr.isRoot])]
      rw [ih (fun j y hj => h (j + 1) y (by simpa using hj))]

/-- Number of attributes carried by an optional attribute list. -/
def optAttrsCount : Option Attrs → Nat
  | none => 0
  | some a => a.inner.length

/-! ### Concrete inputs used by the witness theorems -/

/-- A sample successfully parsed widget body. -/
def sampleWidget : Widget :=
  { doc_attr := none
    attr := WidgetAttr.None
    mutable := none
    name := "my_widget"
    func :=
      { path := strings_to_path ["gtk", "Label"]
        args := none
        method_chain := none
        ty := none }
    args := none
    properties :=
      { properties :=
          [{ name := PropertyName.Ident "visible", ty := PropertyType.Data "true" }] }
    wrapper := none
    ref_token := none
    deref_token := none
    returned_widget := none }

/-- A sample widget-body diagnostic. -/
def errDiag : Diagnostic := { message := "unexpected token", span := 7 }

/-- Stream whose attribute list has two root markers and whose body fails. -/
def errStream : ParseStream :=
  { attrsResult := some { inner := [Attr.Root "a", Attr.Root "b"] }
    widgetParse := fun _ => Except.error errDiag }

/-- Stream with no (or a malformed) leading attribute list. -/
def noAttrStream : ParseStream :=
  { attrsResult := none
    widgetParse := fun _ => Except.error errDiag }

/-- Stream whose attribute list is exactly one root marker, and whose body
parser succeeds only when handed a present (possibly empty) attribute list. -/
def distStream : ParseStream :=
  { attrsResult := some { inner := [Attr.Root "r"] }
    widgetParse := fun oa =>
      match oa with
      | none => Except.error errDiag
      | some _ => Except.ok sampleWidget }

/-! ### Claim theorems -/

/-- C1: for every token-stream input, well-formed or not, the top-level
parse returns a `TopLevelWidget`; a widget-body success becomes the inner
widget and a widget-body failure is absorbed into the fallback widget, so
no sub-parser failure escapes the top-level entry point. -/
theorem parse_total (input : ParseStream) :
    (∃ w, input.widgetParse (filterAttrs input.attrsResult).1 = Except.ok w ∧
      TopLevelWidget.parse input =
        { root_attr := (filterAttrs input.attrsResult).2, inner := w }) ∨
    (∃ e, input.widgetParse (filterAttrs input.attrsResult).1 = Except.error e ∧
      TopLevelWidget.parse input =
        { root_attr := (filterAttrs input.attrsResult).2, inner := fallbackWidget e }) := by
  cases h : input.widgetParse (filterAttrs input.attrsResult).1 with
  | ok w => exact Or.inl ⟨w, rfl, by simp [TopLevelWidget.parse, h]⟩
  | error e => exact Or.inr ⟨e, rfl, by simp [TopLevelWidget.parse, h]⟩

/-- C2: when the widget body fails to parse, the resulting inner widget has
exactly one property, named with the fixed placeholder identifier and of
kind `ParseError`; its function descriptor is the fixed `gtk::Box` fallback
path and its name is the fixed normalized placeholder identifier. -/
theorem parse_fallback_shape (input : ParseStream) (err : Diagnostic)
    (h : input.widgetParse (filterAttrs input.attrsResult).1 = Except.error err) :
    (TopLevelWidget.parse input).inner.properties.properties =
      [{ name := PropertyName.Ident (string_to_snake_case "invalid_property")
         ty := PropertyType.ParseError err }] ∧
    (TopLevelWidget.parse input).inner.func =
      { path := strings_to_path ["gtk", "Box"]
        args := none
        method_chain := none
        ty := none } ∧
    (TopLevelWidget.parse input).inner.name =
      string_to_snake_case "incorrect_top_level_widget" := by
  simp [TopLevelWidget.parse, h, fallbackWidget]

/-- C4: an input with no (or a malformed) leading attribute list yields
`root_attr = none` and a non-root attribute list carrying zero attributes. -/
theorem parse_no_attrs (input : ParseStream) (h : input.attrsResult = none) :
    (TopLevelWidget.parse input).root_attr = none ∧
    (filterAttrs input.attrsResult).1 = none ∧
    optAttrsCount (filterAttrs input.attrsResult).1 = 0 := by
  simp [TopLevelWidget.parse, filterAttrs, h, optAttrsCount]

/-- C5: when the attribute list contains more than one root marker, the
entity's root slot keeps the last root marker and discards the earlier
ones. -/
theorem parse_last_root_wins (input : ParseStream) (prev : Attrs)
    (h : input.attrsResult = some prev)
    (_hm : 1 < (prev.inner.filterMap Attr.rootIdent).length) :
    (TopLevelWidget.parse input).root_attr =
      (prev.inner.filterMap Attr.rootIdent).getLast? := by
  simp [TopLevelWidget.parse, filterAttrs, h, partitionAttrs_snd, lastRootFrom_none]

/-- C6: the diagnostic embedded in the synthesized `ParseError` property is
exactly the error value produced by the failing widget-body sub-parser. -/
theorem parse_error_payload_exact (input : ParseStream) (err : Diagnostic)
    (h : input.widgetParse (filterAttrs input.attrsResult).1 = Except.error err) :
    (TopLevelWidget.parse input).inner.properties.properties.map Property.ty =
      [PropertyType.ParseError err] := by
  simp [TopLevelWidget.parse, h, fallbackWidget]

/-- C7: on widget-body failure, every field of the fallback widget other
than its name, function descriptor and single-property list is left
unpopulated. -/
theorem parse_fallback_frame (input : ParseStream) (err : Diagnostic)
    (h : input.widgetParse (filterAttrs input.attrsResult).1 = Except.error err) :
    (TopLevelWidget.parse input).inner.doc_attr = none ∧
    (TopLevelWidget.parse input).inner.attr = WidgetAttr.None ∧
    (TopLevelWidget.parse input).inner.mutable = none ∧
    (TopLevelWidget.parse input).inner.args = none ∧
    (TopLevelWidget.parse input).inner.wrapper = none ∧
    (TopLevelWidget.parse input).inner.ref_token = none ∧
    (TopLevelWidget.parse input).inner.deref_token = none ∧
    (TopLevelWidget.parse input).inner.returned_widget = none := by
  simp [TopLevelWidget.parse, h, fallbackWidget]

/-- C8: on widget-body failure, the root marker extracted from the leading
attributes is still returned unchanged; the fallback replaces only the
inner widget, not the root slot. -/
theorem parse_failure_preserves_root (input : ParseStream) (err : Diagnostic)
    (_h : input.widgetParse (filterAttrs input.attrsResult).1 = Except.error err) :
    (TopLevelWidget.parse input).root_attr = (filterAttrs input.attrsResult).2 := by
  simp [TopLevelWidget.parse]

/-- C9: the top-level parse is a pure, deterministic function of its input:
equal token streams produce equal trees.  Absence of shared mutable state
holds by construction of the embedding, matching the source, which reads
only its own input stream. -/
theorem parse_deterministic (a b : ParseStream) (h : a = b) :
    TopLevelWidget.parse a = TopLevelWidget.parse b := by
  rw [h]

/-- C10: when a leading attribute list parses successfully, the widget-body
parser receives `some` filtered list (even when it is empty because the
attribute list was only the root marker), never `none`. -/
theorem parse_passes_some_filtered (input : ParseStream) (prev : Attrs)
    (h : input.attrsResult = some prev) :
    (filterAttrs input.attrsResult).1 = some { inner := (partitionAttrs prev.inner).1 } ∧
    (filterAttrs input.attrsResult).1 ≠ none ∧
    (TopLevelWidget.parse input).inner =
      (match input.widgetParse (some { inner := (partitionAttrs prev.inner).1 }) with
       | Except.ok w => w
       | Except.error e => fallbackWidget e) := by
  refine ⟨by simp [filterAttrs, h], by simp [filterAttrs, h], ?_⟩
  simp [TopLevelWidget.parse, filterAttrs, h]

/-- C3 (counterexample): the unrestricted claim fails when the list holds a
second root marker: here a root marker sits at position 0 among 2
attributes, yet the non-root output has length 0, not 2 - 1 = 1, because
the scan also removes the other root marker. -/
theorem partition_root_counterexample :
    ([Attr.Root "a", Attr.Root "b"] : List Attr)[0]? = some (Attr.Root "a") ∧
    ([Attr.Root "a", Attr.Root "b"] : List Attr).length = 2 ∧
    (partitionAttrs [Attr.Root "a", Attr.Root "b"]).1.length = 0 ∧
    (partitionAttrs [Attr.Root "a", Attr.Root "b"]).1.length ≠ 2 - 1 := by
  refine ⟨rfl, rfl, rfl, by decide⟩

/-- C3 (amended): for an attribute list of n attributes whose only root
marker sits at position i, the non-root output equals the input with
position i removed: length n - 1, relative order preserved, nothing else
duplicated or dropped. -/
theorem partition_unique_root (l : List Attr) (i : Nat) (x : Ident)
    (hi : l[i]? = some (Attr.Root x))
    (huniq : ∀ (j : Nat) (y : Ident), l[j]? = some (Attr.Root y) → j = i) :
    (partitionAttrs l).1 = l.eraseIdx i ∧
    (partitionAttrs l).1.length = l.length - 1 := by
  induction l generalizing i with
  | nil => simp at hi
  | cons a rest ih =>
    cases i with
    | zero =>
      have ha : a = Attr.Root x := by simpa using hi
      subst ha
      have hnr : ∀ (j : Nat) (y : Ident), rest[j]? = some (Attr.Root y) → False := by
        intro j y hj
        exact Nat.succ_ne_zero j (huniq (j + 1) y (by simpa using hj))
      have hfix : rest.filter (fun a => !a.isRoot) = rest :=
        filter_eq_self_of_no_root rest hnr
      constructor
      · rw [partitionAttrs_fst, List.filter_cons_of_neg (by simp [Attr.isRoot]), hfix]
        rfl
      · rw [partitionAttrs_fst, List.filter_cons_of_neg (by simp [Attr.isRoot]), hfix]
        simp
    | succ k =>
      cases a with
      | Root y =>
        exact absurd (huniq 0 y (by simp)) (by simp)
      | Other p =>
        have hi2 : rest[k]? = some (Attr.Root x) := by simpa using hi
        have hu2 : ∀ (j : Nat) (y : Ident), rest[j]? = some (Attr.Root y) → j = k := by
          intro j y hj
          have := huniq (j + 1) y (by simpa using hj)
          omega
        obtain ⟨h1, h2⟩ := ih k hi2 hu2
        rw [partitionAttrs_fst] at h1 h2
        have hk : k < rest.length := by
          by_contra hge
          rw [List.getElem?_eq_none (by omega)] at hi2
          cases hi2
        constructor
        · rw [partitionAttrs_fst, List.filter_cons_of_pos (by simp [Attr.isRoot]),
            List.eraseIdx_cons_succ, h1]
        · rw [partitionAttrs_fst, List.filter_cons_of_pos (by simp [Attr.isRoot])]
          simp only [List.length_cons]
          omega

/-! ### Witness theorems -/

/-- Witness for C2 at a concrete failing stream. -/
theorem parse_fallback_shape_witness :
    (TopLevelWidget.parse errStream).inner.properties.properties =
      [{ name := PropertyName.Ident (string_to_snake_case "invalid_property")
         ty := PropertyType.ParseError errDiag }] ∧
    (TopLevelWidget.parse errStream).inner.func =
      { path := strings_to_path ["gtk", "Box"]
        args := none
        method_chain := none
        ty := none } ∧
    (TopLevelWidget.parse errStream).inner.name =
      string_to_snake_case "incorrect_top_level_widget" :=
  parse_fallback_shape errStream errDiag rfl

/-- Witness for the amended C3 at a concrete three-attribute list. -/
theorem partition_unique_root_witness :
    (partitionAttrs [Attr.Other "x", Attr.Root "r", Attr.Other "y"]).1 =
      ([Attr.Other "x", Attr.Root "r", Attr.Other "y"] : List Attr).eraseIdx 1 ∧
    (partitionAttrs [Attr.Other "x", Attr.Root "r", Attr.Other "y"]).1.length =
      ([Attr.Other "x", Attr.Root "r", Attr.Other "y"] : List Attr).length - 1 :=
  partition_unique_root [Attr.Other "x", Attr.Root "r", Attr.Other "y"] 1 "r"
    (by decide)
    (by
      intro j y hj
      match j with
      | 0 => simp at hj
      | 1 => rfl
      | 2 => simp at hj
      | n + 3 => simp at hj)

/-- Witness for C4 at a concrete stream with no attribute list. -/
theorem parse_no_attrs_witness :
    (TopLevelWidget.parse noAttrStream).root_attr = none ∧
    (filterAttrs noAttrStream.attrsResult).1 = none ∧
    optAttrsCount (filterAttrs noAttrStream.attrsResult).1 = 0 :=
  parse_no_attrs noAttrStream rfl

/-- Witness for C5 at a concrete stream with two root markers. -/
theorem parse_last_root_wins_witness :
    (TopLevelWidget.parse errStream).root_attr =
      (([Attr.Root "a", Attr.Root "b"] : List Attr).filterMap Attr.rootIdent).getLast? :=
  parse_last_root_wins errStream { inner := [Attr.Root "a", Attr.Root "b"] } rfl
    (by decide)

/-- Witness for C6 at a concrete failing stream. -/
theorem parse_error_payload_exact_witness :
    (TopLevelWidget.parse errStream).inner.properties.properties.map Property.ty =
      [PropertyType.ParseError errDiag] :=
  parse_error_payload_exact errStream errDiag rfl

/-- Witness for C7 at a concrete failing stream. -/
theorem parse_fallback_frame_witness :
    (TopLevelWidget.parse errStream).inner.doc_attr = none ∧
    (TopLevelWidget.parse errStream).inner.attr = WidgetAttr.None ∧
    (TopLevelWidget.parse errStream).inner.mutable = none ∧
    (TopLevelWidget.parse errStream).inner.args = none ∧
    (TopLevelWidget.parse errStream).inner.wrapper = none ∧
    (TopLevelWidget.parse errStream).inner.ref_token = none ∧
    (TopLevelWidget.parse errStream).inner.deref_token = none ∧
    (TopLevelWidget.parse errStream).inner.returned_widget = none :=
  parse_fallback_frame errStream errDiag rfl

/-- Witness for C8 at a concrete failing stream. -/
theorem parse_failure_preserves_root_witness :
    (TopLevelWidget.parse errStream).root_attr =
      (filterAttrs errStream.attrsResult).2 :=
  parse_failure_preserves_root errStream errDiag rfl

/-- Witness for C9 at a concrete stream. -/
theorem parse_deterministic_witness :
    TopLevelWidget.parse errStream = TopLevelWidget.parse errStream :=
  parse_deterministic errStream errStream rfl

/-- Witness for C10 at a concrete stream whose attribute list is only the
root marker: the widget-body parser receives a present, empty list. -/
theorem parse_passes_some_filtered_witness :
    (filterAttrs distStream.attrsResult).1 =
      some { inner := (partitionAttrs [Attr.Root "r"]).1 } ∧
    (filterAttrs distStream.attrsResult).1 ≠ none ∧
    (TopLevelWidget.parse distStream).inner =
      (match distStream.widgetParse (some { inner := (partitionAttrs [Attr.Root "r"]).1 }) with
       | Except.ok w => w
       | Except.error e => fallbackWidget e) :=
  parse_passes_some_filtered distStream { inner := [Attr.Root "r"] } rfl
